import Mathlib

/- Verification of the inventory reservation and order-lifecycle engine of
   sistema-fardamentos (src/app.py).

   The embedding models the SQLite tables touched by the core functions:
   the `produtos` table is reduced to its two stock columns (`estoque`,
   `estoque_reservado`), the `pedidos` table to the columns the core reads
   or writes (`status`, `tipo_pedido`, `data_entrega_real`, the derived
   totals) together with the `pedido_itens` rows of the order, which the
   schema ties to the order with ON DELETE CASCADE.  Columns the engine
   never reads (cliente_id, escola_id, forma_pagamento, observacoes,
   data_entrega_prevista, data_pedido) are omitted.  Monetary REAL columns
   are modelled as integers; no claim depends on price arithmetic.
   `datetime.now()` is passed in as an explicit `hoje` argument. -/

structure Item where
  produto_id : Nat
  quantidade : Nat
  preco_unitario : Int
  subtotal : Int
deriving DecidableEq

structure Produto where
  estoque : Int
  estoque_reservado : Int
deriving DecidableEq

structure Pedido where
  status : String
  tipo_pedido : String
  data_entrega_real : Option String
  itens : List Item
  quantidade_total : Nat
  valor_total : Int
deriving DecidableEq

/-- The persistent state: the `produtos` stock columns per product id, the
`pedidos` rows (with their `pedido_itens`) per order id, and the next
AUTOINCREMENT order id. -/
structure DB where
  produtos : Nat → Produto
  pedidos : Nat → Option Pedido
  nextId : Nat

def setProduto (prods : Nat → Produto) (pid : Nat) (p : Produto) : Nat → Produto :=
  fun i => if i = pid then p else prods i

def setPedido (peds : Nat → Option Pedido) (oid : Nat) (p : Option Pedido) :
    Nat → Option Pedido :=
  fun i => if i = oid then p else peds i

/-- src/app.py lines 541-548: the per-line stock UPDATE inside
`adicionar_pedido` — a sale decrements `estoque`, anything else increments
`estoque_reservado`, with no availability check. -/
def aplicar_item_criacao (tipo_pedido : String) (prods : Nat → Produto) (it : Item) :
    Nat → Produto :=
  if tipo_pedido = "Venda" then
    setProduto prods it.produto_id
      { prods it.produto_id with
        estoque := (prods it.produto_id).estoque - it.quantidade }
  else
    setProduto prods it.produto_id
      { prods it.produto_id with
        estoque_reservado := (prods it.produto_id).estoque_reservado + it.quantidade }

/-- src/app.py lines 498-504: the per-line UPDATE inside
`liberar_estoque_producao` — transfer from reserved to available, with no
underflow check. -/
def liberar_item (prods : Nat → Produto) (it : Item) : Nat → Produto :=
  setProduto prods it.produto_id
    { estoque := (prods it.produto_id).estoque + it.quantidade,
      estoque_reservado := (prods it.produto_id).estoque_reservado - it.quantidade }

/-- src/app.py lines 657-662: the per-line reversal inside `excluir_pedido`
— a sale order gives the units back to `estoque`, anything else subtracts
from `estoque_reservado`, regardless of the order status. -/
def restaurar_item (tipo_pedido : String) (prods : Nat → Produto) (it : Item) :
    Nat → Produto :=
  if tipo_pedido = "Venda" then
    setProduto prods it.produto_id
      { prods it.produto_id with
        estoque := (prods it.produto_id).estoque + it.quantidade }
  else
    setProduto prods it.produto_id
      { prods it.produto_id with
        estoque_reservado := (prods it.produto_id).estoque_reservado - it.quantidade }

/-- src/app.py lines 516-557, `adicionar_pedido`: computes the totals,
inserts the order header with default status Pendente, inserts the lines,
and applies the per-line stock update.  The function performs no
validation at all: no emptiness check and no availability check.  It
returns the new state and the fresh order id (lastrowid). -/
def adicionar_pedido (db : DB) (itens : List Item) (tipo_pedido : String) : DB × Nat :=
  ({ produtos := List.foldl (aplicar_item_criacao tipo_pedido) db.produtos itens,
     pedidos := setPedido db.pedidos db.nextId (some
       { status := "Pendente", tipo_pedido := tipo_pedido, data_entrega_real := none,
         itens := itens,
         quantidade_total := (itens.map (fun it => it.quantidade)).sum,
         valor_total := (itens.map (fun it => it.subtotal)).sum }),
     nextId := db.nextId + 1 }, db.nextId)

/-- src/app.py lines 485-513, `liberar_estoque_producao`: reads the items
of the order and transfers each quantity from `estoque_reservado` to
`estoque`.  An order with no item rows leaves the state unchanged. -/
def liberar_estoque_producao (db : DB) (pedido_id : Nat) : DB :=
  match db.pedidos pedido_id with
  | none => db
  | some p => { db with produtos := List.foldl liberar_item db.produtos p.itens }

/-- src/app.py lines 591-639, `atualizar_status_pedido`: reads
`tipo_pedido`, writes the new status unconditionally (plus
`data_entrega_real` when the target is Entregue), and, for a production
order being marked Entregue, calls `liberar_estoque_producao`.  That call
runs on its own connection and commits separately; the Boolean
`liberar_ok` models the outcome of that independent transaction.  When it
fails the caller only shows a warning (line 615), still commits the status
write and still returns success — exactly the source control flow.  The
Boolean in the result is the success flag returned to the caller; the
`none` branch models the exception path when the order row is missing
(line 601 would raise, caught at line 635). -/
def atualizar_status_pedido_exec (db : DB) (pedido_id : Nat) (novo_status : String)
    (hoje : String) (liberar_ok : Bool) : DB × Bool :=
  match db.pedidos pedido_id with
  | none => (db, false)
  | some p =>
    if novo_status = "Entregue" then
      let db2 : DB := { db with pedidos := setPedido db.pedidos pedido_id (some { p with status := novo_status, data_entrega_real := some hoje }) }
      if p.tipo_pedido = "Produção" then
        if liberar_ok then (liberar_estoque_producao db2 pedido_id, true)
        else (db2, true)
      else (db2, true)
    else if novo_status = "Em produção" then
      ({ db with pedidos := setPedido db.pedidos pedido_id (some { p with status := novo_status }) }, true)
    else
      ({ db with pedidos := setPedido db.pedidos pedido_id (some { p with status := novo_status }) }, true)

/-- The normal run of `atualizar_status_pedido`, in which the separate
transaction of `liberar_estoque_producao` succeeds. -/
def atualizar_status_pedido (db : DB) (pedido_id : Nat) (novo_status : String)
    (hoje : String) : DB :=
  (atualizar_status_pedido_exec db pedido_id novo_status hoje true).1

/-- src/app.py lines 641-674, `excluir_pedido`: reads the order kind and
items, applies the per-line reversal, and deletes the order row (the
schema cascades the item rows).  There is no status check of any kind. -/
def excluir_pedido (db : DB) (pedido_id : Nat) : DB :=
  match db.pedidos pedido_id with
  | none => db
  | some p =>
    { db with
      produtos := List.foldl (restaurar_item p.tipo_pedido) db.produtos p.itens,
      pedidos := setPedido db.pedidos pedido_id none }

/-- src/app.py lines 1310-1313: the availability check the UI performs
when an item is added to the cart — for a sale the quantity must not
exceed `estoque`, for a production order it must not exceed
`estoque + estoque_reservado`. -/
def verificar_disponibilidade_item (tipo_pedido : String) (p : Produto)
    (quantidade : Nat) : Bool :=
  if tipo_pedido = "Venda" ∧ (quantidade : Int) > p.estoque then false
  else if tipo_pedido = "Produção" ∧
      (quantidade : Int) > p.estoque + p.estoque_reservado then false
  else true

/-- src/app.py line 1513: the UI only calls `atualizar_status_pedido` when
the requested status differs from the current one. -/
def ui_atualizar_status (db : DB) (pedido_id : Nat) (novo_status : String)
    (hoje : String) : DB :=
  match db.pedidos pedido_id with
  | none => db
  | some p =>
    if novo_status ≠ p.status then atualizar_status_pedido db pedido_id novo_status hoje
    else db

/-- Total quantity the given order lines request for one product. -/
def qtyFor (itens : List Item) (pid : Nat) : Int :=
  match itens with
  | [] => 0
  | it :: l => (if pid = it.produto_id then (it.quantidade : Int) else 0) + qtyFor l pid

/-- Concrete one-product test state: every product has stock (e, r), order
id 1 optionally holds `ped`, and the next order id is 2. -/
def mkDB (e r : Int) (ped : Option Pedido) : DB :=
  { produtos := fun _ => { estoque := e, estoque_reservado := r },
    pedidos := fun i => if i = 1 then ped else none,
    nextId := 2 }

theorem Produto.ext2 {p q : Produto} (h1 : p.estoque = q.estoque)
    (h2 : p.estoque_reservado = q.estoque_reservado) : p = q := by
  cases p; cases q; cases h1; cases h2; rfl

theorem qtyFor_nonneg (itens : List Item) (pid : Nat) : 0 ≤ qtyFor itens pid := by
  induction itens with
  | nil => simp [qtyFor]
  | cons it l ih =>
    simp only [qtyFor]
    split
    · omega
    · omega

theorem qtyFor_eq_zero_of_not_mem (itens : List Item) (pid : Nat)
    (h : pid ∉ itens.map (fun it => it.produto_id)) : qtyFor itens pid = 0 := by
  induction itens with
  | nil => rfl
  | cons it l ih =>
    simp only [List.map_cons, List.mem_cons] at h
    push_neg at h
    simp only [qtyFor, if_neg h.1, ih h.2, add_zero, zero_add]

/-- All four per-line stock updates add fixed multiples of the line
quantity to the two counters of the line product; folding such an update
over the lines shifts each product by the corresponding multiple of the
total requested quantity. -/
theorem foldl_delta (g : (Nat → Produto) → Item → (Nat → Produto)) (a b : Int)
    (hg : ∀ prods it pid, g prods it pid =
      if pid = it.produto_id then
        { estoque := (prods pid).estoque + a * it.quantidade,
          estoque_reservado := (prods pid).estoque_reservado + b * it.quantidade }
      else prods pid) :
    ∀ (itens : List Item) (prods : Nat → Produto) (pid : Nat),
      List.foldl g prods itens pid =
        { estoque := (prods pid).estoque + a * qtyFor itens pid,
          estoque_reservado := (prods pid).estoque_reservado + b * qtyFor itens pid } := by
  intro itens
  induction itens with
  | nil =>
    intro prods pid
    simp [qtyFor]
  | cons it l ih =>
    intro prods pid
    rw [List.foldl_cons, ih (g prods it) pid, hg prods it pid]
    by_cases h : pid = it.produto_id
    · rw [if_pos h]
      refine Produto.ext2 ?_ ?_ <;>
      · simp only [qtyFor, if_pos h]
        ring
    · rw [if_neg h]
      refine Produto.ext2 ?_ ?_ <;>
      · simp only [qtyFor, if_neg h]
        ring

theorem criacao_venda_hg : ∀ prods it pid, aplicar_item_criacao "Venda" prods it pid =
    if pid = it.produto_id then
      { estoque := (prods pid).estoque + (-1) * it.quantidade,
        estoque_reservado := (prods pid).estoque_reservado + 0 * it.quantidade }
    else prods pid := by
  intro prods it pid
  have hv : aplicar_item_criacao "Venda" prods it = setProduto prods it.produto_id
      { prods it.produto_id with estoque := (prods it.produto_id).estoque - it.quantidade } := rfl
  rw [hv]
  simp only [setProduto]
  by_cases h : pid = it.produto_id
  · rw [if_pos h, if_pos h, h]
    refine Produto.ext2 ?_ ?_ <;>
    · simp only []
      ring
  · rw [if_neg h, if_neg h]

theorem criacao_outro_hg (tipo : String) (ht : tipo ≠ "Venda") :
    ∀ prods it pid, aplicar_item_criacao tipo prods it pid =
    if pid = it.produto_id then
      { estoque := (prods pid).estoque + 0 * it.quantidade,
        estoque_reservado := (prods pid).estoque_reservado + 1 * it.quantidade }
    else prods pid := by
  intro prods it pid
  simp only [aplicar_item_criacao, setProduto, if_neg ht]
  by_cases h : pid = it.produto_id
  · rw [if_pos h, if_pos h, h]
    refine Produto.ext2 ?_ ?_ <;>
    · simp only []
      ring
  · rw [if_neg h, if_neg h]

theorem liberar_hg : ∀ prods it pid, liberar_item prods it pid =
    if pid = it.produto_id then
      { estoque := (prods pid).estoque + 1 * it.quantidade,
        estoque_reservado := (prods pid).estoque_reservado + (-1) * it.quantidade }
    else prods pid := by
  intro prods it pid
  simp only [liberar_item, setProduto]
  by_cases h : pid = it.produto_id
  · rw [if_pos h, if_pos h, h]
    refine Produto.ext2 ?_ ?_ <;>
    · simp only []
      ring
  · rw [if_neg h, if_neg h]

theorem restaurar_venda_hg : ∀ prods it pid, restaurar_item "Venda" prods it pid =
    if pid = it.produto_id then
      { estoque := (prods pid).estoque + 1 * it.quantidade,
        estoque_reservado := (prods pid).estoque_reservado + 0 * it.quantidade }
    else prods pid := by
  intro prods it pid
  have hv : restaurar_item "Venda" prods it = setProduto prods it.produto_id
      { prods it.produto_id with estoque := (prods it.produto_id).estoque + it.quantidade } := rfl
  rw [hv]
  simp only [setProduto]
  by_cases h : pid = it.produto_id
  · rw [if_pos h, if_pos h, h]
    refine Produto.ext2 ?_ ?_ <;>
    · simp only []
      ring
  · rw [if_neg h, if_neg h]

theorem restaurar_outro_hg (tipo : String) (ht : tipo ≠ "Venda") :
    ∀ prods it pid, restaurar_item tipo prods it pid =
    if pid = it.produto_id then
      { estoque := (prods pid).estoque + 0 * it.quantidade,
        estoque_reservado := (prods pid).estoque_reservado + (-1) * it.quantidade }
    else prods pid := by
  intro prods it pid
  simp only [restaurar_item, setProduto, if_neg ht]
  by_cases h : pid = it.produto_id
  · rw [if_pos h, if_pos h, h]
    refine Produto.ext2 ?_ ?_ <;>
    · simp only []
      ring
  · rw [if_neg h, if_neg h]

theorem adicionar_produtos_venda (db : DB) (itens : List Item) (pid : Nat) :
    (adicionar_pedido db itens "Venda").1.produtos pid =
      { estoque := (db.produtos pid).estoque - qtyFor itens pid,
        estoque_reservado := (db.produtos pid).estoque_reservado } := by
  have h := foldl_delta (aplicar_item_criacao "Venda") (-1) 0 criacao_venda_hg itens
    db.produtos pid
  simp only [adicionar_pedido]
  rw [h]
  refine Produto.ext2 ?_ ?_ <;>
  · simp only []
    ring

theorem adicionar_produtos_outro (db : DB) (itens : List Item) (tipo : String)
    (ht : tipo ≠ "Venda") (pid : Nat) :
    (adicionar_pedido db itens tipo).1.produtos pid =
      { estoque := (db.produtos pid).estoque,
        estoque_reservado := (db.produtos pid).estoque_reservado + qtyFor itens pid } := by
  have h := foldl_delta (aplicar_item_criacao tipo) 0 1 (criacao_outro_hg tipo ht) itens
    db.produtos pid
  simp only [adicionar_pedido]
  rw [h]
  refine Produto.ext2 ?_ ?_ <;>
  · simp only []
    ring

theorem adicionar_pedidos_eff (db : DB) (itens : List Item) (tipo : String) :
    (adicionar_pedido db itens tipo).1.pedidos (adicionar_pedido db itens tipo).2 =
      some { status := "Pendente", tipo_pedido := tipo, data_entrega_real := none,
             itens := itens,
             quantidade_total := (itens.map (fun it => it.quantidade)).sum,
             valor_total := (itens.map (fun it => it.subtotal)).sum } := by
  simp [adicionar_pedido, setPedido]

theorem liberar_pedidos_eff (db : DB) (oid : Nat) :
    (liberar_estoque_producao db oid).pedidos = db.pedidos := by
  unfold liberar_estoque_producao
  cases db.pedidos oid <;> rfl

theorem liberar_produtos_eff (db : DB) (oid : Nat) (p : Pedido) (pid : Nat)
    (hp : db.pedidos oid = some p) :
    (liberar_estoque_producao db oid).produtos pid =
      { estoque := (db.produtos pid).estoque + qtyFor p.itens pid,
        estoque_reservado := (db.produtos pid).estoque_reservado - qtyFor p.itens pid } := by
  have h := foldl_delta liberar_item 1 (-1) liberar_hg p.itens db.produtos pid
  simp only [liberar_estoque_producao, hp]
  rw [h]
  refine Produto.ext2 ?_ ?_ <;>
  · simp only []
    ring

theorem atualizar_pedido_status (db : DB) (oid : Nat) (p : Pedido) (ns hoje : String)
    (hp : db.pedidos oid = some p) :
    (atualizar_status_pedido db oid ns hoje).pedidos oid =
      some { p with
             status := ns,
             data_entrega_real := if ns = "Entregue" then some hoje else p.data_entrega_real } := by
  simp only [atualizar_status_pedido, atualizar_status_pedido_exec, hp]
  by_cases h1 : ns = "Entregue"
  · rw [if_pos h1]
    by_cases h2 : p.tipo_pedido = "Produção"
    · rw [if_pos h2]
      simp [liberar_pedidos_eff, setPedido, h1]
    · rw [if_neg h2]
      simp [setPedido, h1]
  · rw [if_neg h1]
    by_cases h3 : ns = "Em produção"
    · rw [if_pos h3]
      simp [setPedido, h1]
    · rw [if_neg h3]
      simp [setPedido, h1]

theorem atualizar_produtos_naoentregue (db : DB) (oid : Nat) (ns hoje : String)
    (h1 : ns ≠ "Entregue") :
    (atualizar_status_pedido db oid ns hoje).produtos = db.produtos := by
  simp only [atualizar_status_pedido, atualizar_status_pedido_exec]
  cases h : db.pedidos oid
  · rfl
  · simp only [if_neg h1]
    by_cases h3 : ns = "Em produção"
    · simp only [if_pos h3]
    · simp only [if_neg h3]

theorem atualizar_produtos_naoproducao (db : DB) (oid : Nat) (p : Pedido) (hoje : String)
    (hp : db.pedidos oid = some p) (ht : p.tipo_pedido ≠ "Produção") :
    (atualizar_status_pedido db oid "Entregue" hoje).produtos = db.produtos := by
  simp only [atualizar_status_pedido, atualizar_status_pedido_exec, hp]
  rw [if_pos trivial, if_neg ht]

theorem atualizar_entregue_producao_produtos (db : DB) (oid : Nat) (p : Pedido)
    (hoje : String) (pid : Nat)
    (hp : db.pedidos oid = some p) (ht : p.tipo_pedido = "Produção") :
    (atualizar_status_pedido db oid "Entregue" hoje).produtos pid =
      { estoque := (db.produtos pid).estoque + qtyFor p.itens pid,
        estoque_reservado := (db.produtos pid).estoque_reservado - qtyFor p.itens pid } := by
  simp only [atualizar_status_pedido, atualizar_status_pedido_exec, hp]
  rw [if_pos trivial, if_pos ht, if_pos trivial]
  have hp2 : ({ db with pedidos := setPedido db.pedidos oid (some { p with status := "Entregue", data_entrega_real := some hoje }) } : DB).pedidos oid = some { p with status := "Entregue", data_entrega_real := some hoje } := by
    simp [setPedido]
  show (liberar_estoque_producao { db with pedidos := setPedido db.pedidos oid (some { p with status := "Entregue", data_entrega_real := some hoje }) } oid).produtos pid = _
  rw [liberar_produtos_eff _ oid _ pid hp2]

theorem excluir_pedidos_eff (db : DB) (oid : Nat) (p : Pedido)
    (hp : db.pedidos oid = some p) :
    (excluir_pedido db oid).pedidos oid = none := by
  simp only [excluir_pedido, hp]
  simp [setPedido]

theorem excluir_produtos_venda (db : DB) (oid : Nat) (p : Pedido) (pid : Nat)
    (hp : db.pedidos oid = some p) (ht : p.tipo_pedido = "Venda") :
    (excluir_pedido db oid).produtos pid =
      { estoque := (db.produtos pid).estoque + qtyFor p.itens pid,
        estoque_reservado := (db.produtos pid).estoque_reservado } := by
  have h := foldl_delta (restaurar_item "Venda") 1 0 restaurar_venda_hg p.itens
    db.produtos pid
  simp only [excluir_pedido, hp, ht]
  rw [h]
  refine Produto.ext2 ?_ ?_ <;>
  · simp only []
    ring

theorem excluir_produtos_outro (db : DB) (oid : Nat) (p : Pedido) (pid : Nat)
    (hp : db.pedidos oid = some p) (ht : p.tipo_pedido ≠ "Venda") :
    (excluir_pedido db oid).produtos pid =
      { estoque := (db.produtos pid).estoque,
        estoque_reservado := (db.produtos pid).estoque_reservado - qtyFor p.itens pid } := by
  have h := foldl_delta (restaurar_item p.tipo_pedido) 0 (-1)
    (restaurar_outro_hg p.tipo_pedido ht) p.itens db.produtos pid
  simp only [excluir_pedido, hp]
  rw [h]
  refine Produto.ext2 ?_ ?_ <;>
  · simp only []
    ring

theorem atualizar_sucesso (db : DB) (oid : Nat) (p : Pedido) (ns hoje : String)
    (lo : Bool) (hp : db.pedidos oid = some p) :
    (atualizar_status_pedido_exec db oid ns hoje lo).2 = true := by
  simp only [atualizar_status_pedido_exec, hp]
  by_cases h1 : ns = "Entregue"
  · rw [if_pos h1]
    by_cases h2 : p.tipo_pedido = "Produção"
    · rw [if_pos h2]
      by_cases h3 : lo = true
      · rw [if_pos h3]
      · rw [if_neg h3]
    · rw [if_neg h2]
  · rw [if_neg h1]
    by_cases h3 : ns = "Em produção"
    · rw [if_pos h3]
    · rw [if_neg h3]

def itemA : Item := { produto_id := 1, quantidade := 3, preco_unitario := 0, subtotal := 0 }

def itemB : Item := { produto_id := 1, quantidade := 5, preco_unitario := 0, subtotal := 0 }

def pedVendaEntregue : Pedido :=
  { status := "Entregue", tipo_pedido := "Venda", data_entrega_real := some "2026-01-01",
    itens := [itemA], quantidade_total := 3, valor_total := 0 }

def pedVendaAberta : Pedido :=
  { status := "Pendente", tipo_pedido := "Venda", data_entrega_real := none,
    itens := [itemA], quantidade_total := 3, valor_total := 0 }

def pedProdAberta : Pedido :=
  { status := "Pendente", tipo_pedido := "Produção", data_entrega_real := none,
    itens := [itemB], quantidade_total := 5, valor_total := 0 }

/-- Claim C1 (counterexample): the claim says no operation ever pushes a
counter below zero, but `adicionar_pedido` applies the sale decrement with
no guard, so creating a sale order of quantity 1 on a product with zero
stock drives `estoque` to -1. -/
theorem claim_C1_cex :
    (((adicionar_pedido (mkDB 0 0 none)
        [{ produto_id := 1, quantidade := 1, preco_unitario := 0, subtotal := 0 }]
        "Venda").1).produtos 1).estoque < 0 := by
  decide

/-- Claim C1 (amended): the three operations apply fixed per-line deltas
with no non-negativity guard, so starting from `available ≥ 0` and
`reserved ≥ 0` the counters stay non-negative after an operation exactly
when the decremented counter covers the total decremented quantity: sale
creation needs the requested total at most `estoque`; delivering or
deleting a production order needs it at most `estoque_reservado`;
production creation and sale deletion never decrease a counter. -/
theorem claim_C1_amended (db : DB) (pid : Nat)
    (h0 : 0 ≤ (db.produtos pid).estoque ∧ 0 ≤ (db.produtos pid).estoque_reservado) :
    (∀ itens : List Item,
      (0 ≤ ((adicionar_pedido db itens "Venda").1.produtos pid).estoque ∧
       0 ≤ ((adicionar_pedido db itens "Venda").1.produtos pid).estoque_reservado) ↔
      qtyFor itens pid ≤ (db.produtos pid).estoque) ∧
    (∀ itens : List Item,
      0 ≤ ((adicionar_pedido db itens "Produção").1.produtos pid).estoque ∧
      0 ≤ ((adicionar_pedido db itens "Produção").1.produtos pid).estoque_reservado) ∧
    (∀ (oid : Nat) (p : Pedido) (hoje : String),
      db.pedidos oid = some p → p.tipo_pedido = "Produção" →
      ((0 ≤ ((atualizar_status_pedido db oid "Entregue" hoje).produtos pid).estoque ∧
        0 ≤ ((atualizar_status_pedido db oid "Entregue" hoje).produtos pid).estoque_reservado) ↔
       qtyFor p.itens pid ≤ (db.produtos pid).estoque_reservado)) ∧
    (∀ (oid : Nat) (p : Pedido),
      db.pedidos oid = some p → p.tipo_pedido = "Venda" →
      (0 ≤ ((excluir_pedido db oid).produtos pid).estoque ∧
       0 ≤ ((excluir_pedido db oid).produtos pid).estoque_reservado)) ∧
    (∀ (oid : Nat) (p : Pedido),
      db.pedidos oid = some p → p.tipo_pedido ≠ "Venda" →
      ((0 ≤ ((excluir_pedido db oid).produtos pid).estoque ∧
        0 ≤ ((excluir_pedido db oid).produtos pid).estoque_reservado) ↔
       qtyFor p.itens pid ≤ (db.produtos pid).estoque_reservado)) := by
  obtain ⟨he, hr⟩ := h0
  refine ⟨?_, ?_, ?_, ?_, ?_⟩
  · intro itens
    have hq := qtyFor_nonneg itens pid
    simp only [adicionar_produtos_venda]
    omega
  · intro itens
    have hq := qtyFor_nonneg itens pid
    simp only [adicionar_produtos_outro db itens "Produção" (by decide)]
    omega
  · intro oid p hoje hp ht
    have hq := qtyFor_nonneg p.itens pid
    simp only [atualizar_entregue_producao_produtos db oid p hoje pid hp ht]
    omega
  · intro oid p hp ht
    have hq := qtyFor_nonneg p.itens pid
    simp only [excluir_produtos_venda db oid p pid hp ht]
    omega
  · intro oid p hp ht
    have hq := qtyFor_nonneg p.itens pid
    simp only [excluir_produtos_outro db oid p pid hp ht]
    omega

/-- Claim C1 (witness): on a product with 10 available, a sale order of
quantity 3 keeps both counters non-negative. -/
theorem claim_C1_witness :
    0 ≤ ((adicionar_pedido (mkDB 10 0 none) [itemA] "Venda").1.produtos 1).estoque ∧
    0 ≤ ((adicionar_pedido (mkDB 10 0 none) [itemA] "Venda").1.produtos 1).estoque_reservado :=
  ((claim_C1_amended (mkDB 10 0 none) 1 (by decide)).1 [itemA]).mpr (by decide)

/-- Claim C2 (counterexample): the claim says an empty line list is
rejected with EmptyOrder and nothing is persisted, but `adicionar_pedido`
persists an order with no lines and reports success. -/
theorem claim_C2_cex :
    (adicionar_pedido (mkDB 0 0 none) [] "Venda").1.pedidos 2 =
      some { status := "Pendente", tipo_pedido := "Venda", data_entrega_real := none,
             itens := [], quantidade_total := 0, valor_total := 0 } := by
  decide

/-- Claim C2 (amended): `adicionar_pedido` itself performs no validation —
for every line list (empty included) and any stock state it persists the
order with status Pendente and applies the per-line deltas
unconditionally; the kind-specific availability rule (Sale: quantity at
most `estoque`; Production: quantity at most `estoque + estoque_reservado`)
is enforced only by the UI item-add check
`verificar_disponibilidade_item`. -/
theorem claim_C2_amended :
    (∀ (db : DB) (itens : List Item) (tipo : String),
      (adicionar_pedido db itens tipo).1.pedidos (adicionar_pedido db itens tipo).2 =
        some { status := "Pendente", tipo_pedido := tipo, data_entrega_real := none,
               itens := itens,
               quantidade_total := (itens.map (fun it => it.quantidade)).sum,
               valor_total := (itens.map (fun it => it.subtotal)).sum }) ∧
    (∀ (db : DB) (itens : List Item) (pid : Nat),
      (adicionar_pedido db itens "Venda").1.produtos pid =
        { estoque := (db.produtos pid).estoque - qtyFor itens pid,
          estoque_reservado := (db.produtos pid).estoque_reservado }) ∧
    (∀ (db : DB) (itens : List Item) (pid : Nat),
      (adicionar_pedido db itens "Produção").1.produtos pid =
        { estoque := (db.produtos pid).estoque,
          estoque_reservado := (db.produtos pid).estoque_reservado + qtyFor itens pid }) ∧
    (∀ (p : Produto) (q : Nat),
      verificar_disponibilidade_item "Venda" p q = true ↔ (q : Int) ≤ p.estoque) ∧
    (∀ (p : Produto) (q : Nat),
      verificar_disponibilidade_item "Produção" p q = true ↔
        (q : Int) ≤ p.estoque + p.estoque_reservado) := by
  refine ⟨?_, ?_, ?_, ?_, ?_⟩
  · intro db itens tipo
    exact adicionar_pedidos_eff db itens tipo
  · intro db itens pid
    exact adicionar_produtos_venda db itens pid
  · intro db itens pid
    exact adicionar_produtos_outro db itens "Produção" (by decide) pid
  · intro p q
    unfold verificar_disponibilidade_item
    by_cases h : (q : Int) > p.estoque
    · rw [if_pos ⟨rfl, h⟩]
      simp
      omega
    · rw [if_neg (fun hc => h hc.2), if_neg (fun hc => absurd hc.1 (by decide))]
      simp
      omega
  · intro p q
    unfold verificar_disponibilidade_item
    rw [if_neg (fun hc => absurd hc.1 (by decide))]
    by_cases h : (q : Int) > p.estoque + p.estoque_reservado
    · rw [if_pos ⟨rfl, h⟩]
      simp
      omega
    · rw [if_neg (fun hc => h hc.2)]
      simp
      omega

/-- Claim C3 (counterexample): the claim says any transition request on a
Delivered order fails with TerminalStateViolation and leaves the status
unchanged, but the code reports success and overwrites the status of a
delivered sale order back to Pendente. -/
theorem claim_C3_cex :
    (atualizar_status_pedido_exec (mkDB 7 0 (some pedVendaEntregue)) 1 "Pendente"
      "2026-02-02" true).2 = true ∧
    (atualizar_status_pedido (mkDB 7 0 (some pedVendaEntregue)) 1 "Pendente"
      "2026-02-02").pedidos 1 = some { pedVendaEntregue with status := "Pendente" } := by
  decide

/-- Claim C3 (amended): `atualizar_status_pedido` ignores the current
status entirely: a transition request on an order whose status is
Entregue or Cancelado reports success and overwrites the status with the
target (setting the delivery date when the target is Entregue); no
TerminalStateViolation exists in the code. -/
theorem claim_C3_amended (db : DB) (oid : Nat) (p : Pedido) (alvo hoje : String)
    (hp : db.pedidos oid = some p)
    (hterm : p.status = "Entregue" ∨ p.status = "Cancelado") :
    (atualizar_status_pedido_exec db oid alvo hoje true).2 = true ∧
    (atualizar_status_pedido db oid alvo hoje).pedidos oid =
      some { p with
             status := alvo,
             data_entrega_real := if alvo = "Entregue" then some hoje else p.data_entrega_real } :=
  ⟨atualizar_sucesso db oid p alvo hoje true hp, atualizar_pedido_status db oid p alvo hoje hp⟩

/-- Claim C3 (witness): a delivered sale order is moved back to Em
produção with success. -/
theorem claim_C3_witness :
    (atualizar_status_pedido_exec (mkDB 7 0 (some pedVendaEntregue)) 1 "Em produção"
      "2026-02-02" true).2 = true ∧
    (atualizar_status_pedido (mkDB 7 0 (some pedVendaEntregue)) 1 "Em produção"
      "2026-02-02").pedidos 1 =
      some { pedVendaEntregue with
             status := "Em produção",
             data_entrega_real := if ("Em produção" : String) = "Entregue" then some "2026-02-02" else pedVendaEntregue.data_entrega_real } :=
  claim_C3_amended (mkDB 7 0 (some pedVendaEntregue)) 1 pedVendaEntregue "Em produção"
    "2026-02-02" rfl (Or.inl rfl)

/-- Claim C4 (counterexample): the claim says cancelling a sale order
restores each line quantity to `estoque`, but cancelling a pending sale
order of quantity 3 leaves `estoque` at 7 instead of 10 — only the status
is written. -/
theorem claim_C4_cex :
    (atualizar_status_pedido (mkDB 7 0 (some pedVendaAberta)) 1 "Cancelado"
      "2026-02-02").produtos 1 = { estoque := 7, estoque_reservado := 0 } ∧
    (atualizar_status_pedido (mkDB 7 0 (some pedVendaAberta)) 1 "Cancelado"
      "2026-02-02").produtos 1 ≠ { estoque := 10, estoque_reservado := 0 } ∧
    (atualizar_status_pedido (mkDB 7 0 (some pedVendaAberta)) 1 "Cancelado"
      "2026-02-02").pedidos 1 = some { pedVendaAberta with status := "Cancelado" } := by
  decide

/-- Claim C4 (amended): transitioning an order to Cancelled via
`atualizar_status_pedido` performs no ledger operation for either kind:
the stock counters are left exactly unchanged and only the status is
overwritten.  The kind-appropriate reversal happens solely in
`excluir_pedido`. -/
theorem claim_C4_amended (db : DB) (oid : Nat) (p : Pedido) (hoje : String)
    (hp : db.pedidos oid = some p)
    (hnt : p.status ≠ "Entregue" ∧ p.status ≠ "Cancelado") :
    (atualizar_status_pedido db oid "Cancelado" hoje).produtos = db.produtos ∧
    (atualizar_status_pedido db oid "Cancelado" hoje).pedidos oid =
      some { p with status := "Cancelado" } := by
  constructor
  · exact atualizar_produtos_naoentregue db oid "Cancelado" hoje (by decide)
  · rw [atualizar_pedido_status db oid p "Cancelado" hoje hp,
      if_neg (show ¬("Cancelado" : String) = "Entregue" by decide)]

/-- Claim C4 (witness): cancelling the pending sale order leaves the stock
function unchanged and sets the status. -/
theorem claim_C4_witness :
    (atualizar_status_pedido (mkDB 7 0 (some pedVendaAberta)) 1 "Cancelado"
      "2026-02-02").produtos = (mkDB 7 0 (some pedVendaAberta)).produtos ∧
    (atualizar_status_pedido (mkDB 7 0 (some pedVendaAberta)) 1 "Cancelado"
      "2026-02-02").pedidos 1 = some { pedVendaAberta with status := "Cancelado" } :=
  claim_C4_amended (mkDB 7 0 (some pedVendaAberta)) 1 pedVendaAberta "2026-02-02" rfl
    ⟨by decide, by decide⟩

/-- Claim C5: delivering a production order transfers each line quantity
from `estoque_reservado` to `estoque` and stamps the actual delivery date;
in particular scenario B holds: from available 10 and reserved 0, creating
a production order of quantity 5 gives (10, 5) and delivering it gives
(15, 0). -/
theorem claim_C5 (db : DB) (oid : Nat) (p : Pedido) (hoje : String)
    (hp : db.pedidos oid = some p) (ht : p.tipo_pedido = "Produção") :
    (∀ pid : Nat, (atualizar_status_pedido db oid "Entregue" hoje).produtos pid =
      { estoque := (db.produtos pid).estoque + qtyFor p.itens pid,
        estoque_reservado := (db.produtos pid).estoque_reservado - qtyFor p.itens pid }) ∧
    (atualizar_status_pedido db oid "Entregue" hoje).pedidos oid =
      some { p with status := "Entregue", data_entrega_real := some hoje } := by
  constructor
  · intro pid
    exact atualizar_entregue_producao_produtos db oid p hoje pid hp ht
  · rw [atualizar_pedido_status db oid p "Entregue" hoje hp,
      if_pos (show ("Entregue" : String) = "Entregue" from rfl)]

/-- Claim C5 (witness): scenario B — create a production order of quantity
5 on a product with available 10 and reserved 0, then deliver it. -/
theorem claim_C5_witness :
    (adicionar_pedido (mkDB 10 0 none) [itemB] "Produção").1.produtos 1 =
      { estoque := 10, estoque_reservado := 5 } ∧
    (atualizar_status_pedido ((adicionar_pedido (mkDB 10 0 none) [itemB] "Produção").1) 2
      "Entregue" "2026-02-02").produtos 1 = { estoque := 15, estoque_reservado := 0 } := by
  constructor
  · decide
  · have h := (claim_C5 ((adicionar_pedido (mkDB 10 0 none) [itemB] "Produção").1) 2
      { status := "Pendente", tipo_pedido := "Produção", data_entrega_real := none,
        itens := [itemB], quantidade_total := 5, valor_total := 0 } "2026-02-02"
      (by decide) rfl).1 1
    exact h.trans (by decide)

/-- Claim C6: creating an order of any kind and then deleting it restores
every product stock record exactly — the decremented or reserved counter
returns to its pre-creation value and the other counter is untouched. -/
theorem claim_C6 (db : DB) (itens : List Item) (tipo : String) (pid : Nat) :
    (excluir_pedido (adicionar_pedido db itens tipo).1
      (adicionar_pedido db itens tipo).2).produtos pid = db.produtos pid := by
  by_cases ht : tipo = "Venda"
  · subst ht
    have hp := adicionar_pedidos_eff db itens "Venda"
    have h2 := excluir_produtos_venda (adicionar_pedido db itens "Venda").1
      (adicionar_pedido db itens "Venda").2 _ pid hp rfl
    rw [h2, adicionar_produtos_venda]
    refine Produto.ext2 ?_ ?_ <;> simp only [] <;> ring
  · have hp := adicionar_pedidos_eff db itens tipo
    have h2 := excluir_produtos_outro (adicionar_pedido db itens tipo).1
      (adicionar_pedido db itens tipo).2 _ pid hp ht
    rw [h2, adicionar_produtos_outro db itens tipo ht]
    refine Produto.ext2 ?_ ?_ <;> simp only [] <;> ring

/-- Claim C7 (counterexample): the claim says repeating a transition
request is an idempotent no-op on stock, but delivering a production order
of quantity 5 twice re-applies the release transfer: after the first
request the product is at (15, 0), after the repeat it is at (20, -5). -/
theorem claim_C7_cex :
    (atualizar_status_pedido (mkDB 10 5 (some pedProdAberta)) 1 "Entregue"
      "d1").produtos 1 = { estoque := 15, estoque_reservado := 0 } ∧
    (atualizar_status_pedido (atualizar_status_pedido (mkDB 10 5 (some pedProdAberta)) 1
      "Entregue" "d1") 1 "Entregue" "d2").produtos 1 =
      { estoque := 20, estoque_reservado := -5 } := by
  decide

/-- Claim C7 (amended): repeating the same transition request through
`atualizar_status_pedido` leaves stock unchanged except for the target
Entregue on a production order, where every repeat re-applies the release
transfer (duplicate ledger effect); the idempotence the spec describes
holds only for the UI path, which skips the call when the requested status
equals the current one. -/
theorem claim_C7_amended (db : DB) (oid : Nat) (p : Pedido) (alvo hoje1 hoje2 : String)
    (hp : db.pedidos oid = some p) :
    (¬(alvo = "Entregue" ∧ p.tipo_pedido = "Produção") →
      (atualizar_status_pedido (atualizar_status_pedido db oid alvo hoje1) oid alvo
        hoje2).produtos = (atualizar_status_pedido db oid alvo hoje1).produtos) ∧
    (alvo = "Entregue" → p.tipo_pedido = "Produção" →
      ∀ pid : Nat,
        ((atualizar_status_pedido (atualizar_status_pedido db oid alvo hoje1) oid alvo
          hoje2).produtos pid) =
        { estoque := ((atualizar_status_pedido db oid alvo hoje1).produtos pid).estoque +
            qtyFor p.itens pid,
          estoque_reservado :=
            ((atualizar_status_pedido db oid alvo hoje1).produtos pid).estoque_reservado -
            qtyFor p.itens pid }) ∧
    (ui_atualizar_status (ui_atualizar_status db oid alvo hoje1) oid alvo hoje2).produtos =
      (ui_atualizar_status db oid alvo hoje1).produtos := by
  have hp1 := atualizar_pedido_status db oid p alvo hoje1 hp
  refine ⟨?_, ?_, ?_⟩
  · intro hno
    by_cases h1 : alvo = "Entregue"
    · have h2 : p.tipo_pedido ≠ "Produção" := fun hh => hno ⟨h1, hh⟩
      subst h1
      exact atualizar_produtos_naoproducao (atualizar_status_pedido db oid "Entregue" hoje1)
        oid _ hoje2 hp1 h2
    · exact atualizar_produtos_naoentregue (atualizar_status_pedido db oid alvo hoje1)
        oid alvo hoje2 h1
  · intro h1 h2
    subst h1
    intro pid
    have hres := atualizar_entregue_producao_produtos
      (atualizar_status_pedido db oid "Entregue" hoje1) oid _ hoje2 pid hp1 h2
    exact hres
  · simp only [ui_atualizar_status, hp]
    by_cases hne : alvo ≠ p.status
    · rw [if_pos hne]
      simp only [hp1]
      rw [if_neg (fun hh => hh rfl)]
    · rw [if_neg hne]
      simp only [hp]
      rw [if_neg hne]

/-- Claim C7 (witness): repeating the Em produção request on the pending
production order leaves stock unchanged. -/
theorem claim_C7_witness :
    (atualizar_status_pedido (atualizar_status_pedido (mkDB 10 5 (some pedProdAberta)) 1
      "Em produção" "d1") 1 "Em produção" "d2").produtos =
    (atualizar_status_pedido (mkDB 10 5 (some pedProdAberta)) 1 "Em produção"
      "d1").produtos :=
  (claim_C7_amended (mkDB 10 5 (some pedProdAberta)) 1 pedProdAberta "Em produção"
    "d1" "d2" rfl).1 (by decide)

/-- Claim C8 (counterexample): the claim says that if the ledger release
fails at delivery the status is not changed and the caller receives the
error, but when `liberar_estoque_producao` fails the code still writes
status Entregue and still returns success to the caller. -/
theorem claim_C8_cex :
    (atualizar_status_pedido_exec (mkDB 10 5 (some pedProdAberta)) 1 "Entregue" "d1"
      false).2 = true ∧
    (atualizar_status_pedido_exec (mkDB 10 5 (some pedProdAberta)) 1 "Entregue" "d1"
      false).1.pedidos 1 =
      some { pedProdAberta with status := "Entregue", data_entrega_real := some "d1" } := by
  decide

/-- Claim C8 (amended): the status write and the ledger release of a
production order delivery run in separate transactions: when the release
operation fails, only the stock mutation is skipped — the status write
still commits (with the delivery date) and the caller still receives
success; only a warning is displayed. -/
theorem claim_C8_amended (db : DB) (oid : Nat) (p : Pedido) (hoje : String)
    (hp : db.pedidos oid = some p) (ht : p.tipo_pedido = "Produção") :
    (atualizar_status_pedido_exec db oid "Entregue" hoje false).2 = true ∧
    (atualizar_status_pedido_exec db oid "Entregue" hoje false).1.pedidos oid =
      some { p with status := "Entregue", data_entrega_real := some hoje } ∧
    (atualizar_status_pedido_exec db oid "Entregue" hoje false).1.produtos =
      db.produtos := by
  refine ⟨atualizar_sucesso db oid p "Entregue" hoje false hp, ?_, ?_⟩
  · simp only [atualizar_status_pedido_exec, hp]
    rw [if_pos trivial, if_pos ht, if_neg (by decide)]
    simp [setPedido]
  · simp only [atualizar_status_pedido_exec, hp]
    rw [if_pos trivial, if_pos ht, if_neg (by decide)]

/-- Claim C8 (witness): a failed release on delivering the production
order still flips its status and reports success, with stock untouched. -/
theorem claim_C8_witness :
    (atualizar_status_pedido_exec (mkDB 10 5 (some pedProdAberta)) 1 "Entregue" "d1"
      false).2 = true ∧
    (atualizar_status_pedido_exec (mkDB 10 5 (some pedProdAberta)) 1 "Entregue" "d1"
      false).1.pedidos 1 =
      some { pedProdAberta with status := "Entregue", data_entrega_real := some "d1" } ∧
    (atualizar_status_pedido_exec (mkDB 10 5 (some pedProdAberta)) 1 "Entregue" "d1"
      false).1.produtos = (mkDB 10 5 (some pedProdAberta)).produtos :=
  claim_C8_amended (mkDB 10 5 (some pedProdAberta)) 1 pedProdAberta "d1" rfl rfl

/-- Claim C9 (counterexample): the claim says deleting a Delivered order
is rejected with CannotDeleteDelivered with no reversal and no deletion,
but the code deletes the delivered sale order and adds its quantity back
to `estoque`. -/
theorem claim_C9_cex :
    (excluir_pedido (mkDB 7 0 (some pedVendaEntregue)) 1).pedidos 1 = none ∧
    (excluir_pedido (mkDB 7 0 (some pedVendaEntregue)) 1).produtos 1 =
      { estoque := 10, estoque_reservado := 0 } := by
  decide

/-- Claim C9 (amended): `excluir_pedido` never inspects the status: for
every order, Delivered included, it applies the kind-appropriate reversal
to each line (Sale: `estoque` += quantity; otherwise: `estoque_reservado`
-= quantity) and deletes the order with its lines; no CannotDeleteDelivered
exists in the code. -/
theorem claim_C9_amended (db : DB) (oid : Nat) (p : Pedido)
    (hp : db.pedidos oid = some p) :
    (excluir_pedido db oid).pedidos oid = none ∧
    (p.tipo_pedido = "Venda" → ∀ pid : Nat,
      (excluir_pedido db oid).produtos pid =
        { estoque := (db.produtos pid).estoque + qtyFor p.itens pid,
          estoque_reservado := (db.produtos pid).estoque_reservado }) ∧
    (p.tipo_pedido ≠ "Venda" → ∀ pid : Nat,
      (excluir_pedido db oid).produtos pid =
        { estoque := (db.produtos pid).estoque,
          estoque_reservado := (db.produtos pid).estoque_reservado - qtyFor p.itens pid }) := by
  refine ⟨excluir_pedidos_eff db oid p hp, ?_, ?_⟩
  · intro ht pid
    exact excluir_produtos_venda db oid p pid hp ht
  · intro ht pid
    exact excluir_produtos_outro db oid p pid hp ht

/-- Claim C9 (witness): deleting the delivered sale order of quantity 3
removes it and restores the 3 units to a product holding 20. -/
theorem claim_C9_witness :
    (excluir_pedido (mkDB 20 3 (some pedVendaEntregue)) 1).pedidos 1 = none ∧
    (excluir_pedido (mkDB 20 3 (some pedVendaEntregue)) 1).produtos 1 =
      { estoque := 23, estoque_reservado := 3 } := by
  refine ⟨(claim_C9_amended (mkDB 20 3 (some pedVendaEntregue)) 1 pedVendaEntregue rfl).1, ?_⟩
  have h := (claim_C9_amended (mkDB 20 3 (some pedVendaEntregue)) 1 pedVendaEntregue
    rfl).2.1 rfl 1
  exact h.trans (by decide)

/-- Claim C10: the release performed at delivery of a production order
conserves the total on-hand stock of every product — `estoque +
estoque_reservado` is invariant under `liberar_estoque_producao` — and
every product not on the order keeps both counters unchanged. -/
theorem claim_C10 (db : DB) (oid : Nat) (p : Pedido)
    (hp : db.pedidos oid = some p) :
    (∀ pid : Nat,
      ((liberar_estoque_producao db oid).produtos pid).estoque +
        ((liberar_estoque_producao db oid).produtos pid).estoque_reservado =
      (db.produtos pid).estoque + (db.produtos pid).estoque_reservado) ∧
    (∀ pid : Nat, pid ∉ p.itens.map (fun it => it.produto_id) →
      (liberar_estoque_producao db oid).produtos pid = db.produtos pid) := by
  constructor
  · intro pid
    rw [liberar_produtos_eff db oid p pid hp]
    simp only []
    ring
  · intro pid hmem
    rw [liberar_produtos_eff db oid p pid hp, qtyFor_eq_zero_of_not_mem p.itens pid hmem]
    refine Produto.ext2 ?_ ?_ <;> simp only [] <;> ring

/-- Claim C10 (witness): releasing the production order of quantity 5 on
product 1 keeps product 1's total at 15 and leaves product 2 unchanged. -/
theorem claim_C10_witness :
    (((liberar_estoque_producao (mkDB 10 5 (some pedProdAberta)) 1).produtos 1).estoque +
      ((liberar_estoque_producao (mkDB 10 5 (some pedProdAberta)) 1).produtos 1).estoque_reservado =
      ((mkDB 10 5 (some pedProdAberta)).produtos 1).estoque +
        ((mkDB 10 5 (some pedProdAberta)).produtos 1).estoque_reservado) ∧
    (liberar_estoque_producao (mkDB 10 5 (some pedProdAberta)) 1).produtos 2 =
      (mkDB 10 5 (some pedProdAberta)).produtos 2 :=
  ⟨(claim_C10 (mkDB 10 5 (some pedProdAberta)) 1 pedProdAberta rfl).1 1,
   (claim_C10 (mkDB 10 5 (some pedProdAberta)) 1 pedProdAberta rfl).2 2 (by decide)⟩
